import Mathlib

/-!
# Verification of the Roth Touchline client (rothServer.go)

Shallow embedding of the protocol codec of `rothServer.go`:

* the sensor record and derived valve state,
* `strconv.ParseInt` (base 10, bit sizes 8 and 16, including Go's
  clamped return value on range errors),
* the regex `^G([0-9]+)\.(.+)$` used to split response item names,
* the decode loop of `GetSensors` (a Go slice-index panic is modelled
  as `none`),
* the count query `GetSensorCount`,
* the write-command URLs of `SetTargetTemperature` / `SetProgram` /
  `SetMode`, including `strconv.FormatFloat(_, 'f', 0, 32)`,
* the request-building loop of `GetSensors`.

IEEE-754 binary32 values are modelled exactly as rationals; `toFloat32`
rounds a rational to the nearest binary32 value (ties to even).  The
model covers the normal range of the format, which contains every value
the protocol can produce; overflow to infinity, subnormal underflow and
the sign of zero are outside the range exercised here and are not
modelled.  The HTTP transport and XML envelope are external to the
codec; functions below take the decoded (name, value) pairs directly.
-/

/- Batteries marks the `Rat` field operations `@[irreducible]`, which
blocks the elaborator's evaluation of `decide` proofs on concrete
rationals.  Restoring the default transparency only lets `decide`
evaluate them; every proof is still checked by the kernel. -/
set_option allowUnsafeReducibility true in
attribute [semireducible] Rat.mul Rat.inv Rat.add Rat.sub Rat.ofScientific

set_option maxRecDepth 8000

/-- Round a rational to the nearest integer, ties to even.  This is the
rounding used both by IEEE-754 binary arithmetic (on scaled mantissas)
and by Go's `strconv.FormatFloat` with an explicit precision. -/
def rne (q : ℚ) : ℤ :=
  let f := q.floor
  let r := q - (f : ℚ)
  if r < 1/2 then f
  else if 1/2 < r then f + 1
  else if f % 2 = 0 then f else f + 1

/-- `2 ^ n` for an integer exponent, as a rational. -/
def qpow2 (n : ℤ) : ℚ :=
  if 0 ≤ n then ((2 ^ n.toNat : ℕ) : ℚ) else 1 / ((2 ^ (-n).toNat : ℕ) : ℚ)

/-- Fuelled `⌊log 2⌋` on naturals (`natLog2F fuel n` is exact for `n < 2 ^ fuel`). -/
def natLog2F : ℕ → ℕ → ℕ
  | 0, _ => 0
  | fuel + 1, n => if 2 ≤ n then natLog2F fuel (n / 2) + 1 else 0

/-- Fuelled `⌈log 2⌉` on naturals. -/
def natClog2F : ℕ → ℕ → ℕ
  | 0, _ => 0
  | fuel + 1, n => if 2 ≤ n then natClog2F fuel ((n + 1) / 2) + 1 else 0

/-- `⌊log 2 v⌋` for a positive rational `v` (fuel covers the binary32 range). -/
def qlog2 (v : ℚ) : ℤ :=
  if 1 ≤ v then (natLog2F 300 v.floor.toNat : ℤ)
  else -(natClog2F 300 (v⁻¹).ceil.toNat : ℤ)

/-- Nearest binary32 value to a positive rational (normal range): scale
to a 24-bit mantissa, round to nearest with ties to even, scale back. -/
def f32pos (v : ℚ) : ℚ :=
  let e := qlog2 v
  (rne (v * qpow2 (23 - e)) : ℚ) * qpow2 (e - 23)

/-- Nearest binary32 value to a rational (normal range and zero). -/
def toFloat32 (v : ℚ) : ℚ :=
  if v = 0 then 0
  else if v < 0 then -(f32pos (-v))
  else f32pos v

/-- Value of a decimal digit character. -/
def digitVal (c : Char) : ℕ := c.toNat - '0'.toNat

/-- Numeric value of a list of decimal digit characters. -/
def digitsToNat (l : List Char) : ℕ := l.foldl (fun a c => 10 * a + digitVal c) 0

/-- Leading-sign handling of Go's `strconv.ParseInt`: strip one optional
`+` or `-` and report whether the number is negated. -/
def stripSign (s : List Char) : Bool × List Char :=
  match s with
  | [] => (false, [])
  | c :: t =>
      if c = '-' then (true, t)
      else if c = '+' then (false, t)
      else (false, c :: t)

/-- Go's `strconv.ParseInt(s, 10, bits)` on a character list: returns the
parsed value and an ok flag.  After the optional sign, `ParseUint` scans
the leading digit run and returns early with `(2^bits - 1, ErrRange)`
as soon as the accumulated value exceeds the unsigned bound — before it
looks at any later non-digit — and `ParseInt` then clamps that to
`2^(bits-1) - 1` (or `-2^(bits-1)` under a minus sign).  A non-digit
reached while the accumulated value still fits the unsigned bound is a
syntax error returning `0`.  So with `bits = 16`, `"70000x"` parses to
`(32767, error)` but `"40000x"` to `(0, error)`, and a pure digit run in
`[2^15, 2^16)` clamps to `(32767, error)` via `ParseInt`'s signed range
check.  The Go callers in `rothServer.go` sometimes use the returned
value even when the error is non-nil, so these residuals matter. -/
def parseIntCore (bits : ℕ) (s : List Char) : Int × Bool :=
  let sg := stripSign s
  let ds := (sg.2).takeWhile Char.isDigit
  let rest := (sg.2).dropWhile Char.isDigit
  if ds = [] then (0, false)
  else
    let n := digitsToNat ds
    let cutoff : ℕ := 2 ^ (bits - 1)
    if 2 ^ bits - 1 < n then
      if sg.1 then (-(cutoff : Int), false) else ((cutoff : Int) - 1, false)
    else if rest ≠ [] then (0, false)
    else if sg.1 then
      if cutoff < n then (-(cutoff : Int), false) else (-(n : Int), true)
    else
      if cutoff ≤ n then ((cutoff : Int) - 1, false) else ((n : Int), true)

/-- The `Sensor` struct of `rothServer.go` (Go zero values: `0`, `""`). -/
structure Sensor where
  Id : Int
  Name : String
  RoomTemperature : ℚ
  TargetTemperature : ℚ
  Program : Int
  Mode : Int
deriving DecidableEq

/-- Zero value of the Go `Sensor` struct, as produced by `make([]Sensor, n)`. -/
def defaultSensor : Sensor := ⟨0, "", 0, 0, 0, 0⟩

/-- `Sensor.GetValveState`: derived valve state, `"open"` iff the room
temperature is below the target temperature. -/
def Sensor.GetValveState (s : Sensor) : String :=
  if s.RoomTemperature < s.TargetTemperature then "open" else "closed"

/-- `Sensor.GetValveValue`: 1 iff the room temperature is below the target. -/
def Sensor.GetValveValue (s : Sensor) : Int :=
  if s.RoomTemperature < s.TargetTemperature then 1 else 0

/-- The anchored regex `^G([0-9]+)\.(.+)$` of `GetSensors`, as a function
on the item name's characters: a leading `G`, then a non-empty maximal
digit run (a shorter run would be followed by a digit, not by `.`, so
only the maximal run can match), then `.`, then a non-empty remainder
in which `.` of the regex forbids a newline.  Returns the two capture
groups. -/
def sensorInfoMatch (name : List Char) : Option (List Char × List Char) :=
  match name with
  | [] => none
  | g :: rest =>
      if g = 'G' then
        let ds := rest.takeWhile Char.isDigit
        match rest.dropWhile Char.isDigit with
        | [] => none
        | dot :: field =>
            if ds ≠ [] ∧ dot = '.' ∧ field ≠ [] ∧ field.all (fun c => ¬ c = '\n') = true
            then some (ds, field)
            else none
      else none

/-- One iteration of the decode loop of `GetSensors` on one response
item.  A name that does not match the regex is logged and skipped.  On a
match the index is parsed with `ParseInt(_, 10, 8)`; a parse error is
logged but the (clamped) value is still used, exactly as in the source.
`&sensors[int(sensorIndex)]` panics in Go when the index is out of
range; the panic is modelled as `none`.  The value is parsed with
`ParseInt(_, 10, 16)`; `floatValue` stays `0` unless the parse
succeeded, while `intValue` is used as returned.  `Id` is always
assigned, then the matched field is dispatched. -/
def decodeStep (sensors : List Sensor) (item : String × String) : Option (List Sensor) :=
  match sensorInfoMatch item.1.data with
  | none => some sensors
  | some (ds, fieldChars) =>
      let sensorIndex : Int := (parseIntCore 8 ds).1
      if 0 ≤ sensorIndex ∧ sensorIndex.toNat < sensors.length then
        let idx := sensorIndex.toNat
        let valPair := parseIntCore 16 item.2.data
        let intValue := valPair.1
        let floatValue : ℚ := if valPair.2 then toFloat32 ((intValue : ℚ) / 100) else 0
        let s0 := sensors.getD idx defaultSensor
        let s1 : Sensor := { s0 with Id := sensorIndex }
        let s2 : Sensor :=
          if fieldChars = "RaumTemp".data then { s1 with RoomTemperature := floatValue }
          else if fieldChars = "SollTemp".data then { s1 with TargetTemperature := floatValue }
          else if fieldChars = "name".data then { s1 with Name := item.2 }
          else if fieldChars = "WeekProg".data then { s1 with Program := intValue }
          else if fieldChars = "OPmode".data then { s1 with Mode := intValue }
          else s1
        some (sensors.set idx s2)
      else none

/-- The decode loop of `GetSensors` over all response items; a panic
(`none`) aborts the loop, as in Go. -/
def decodeItems (items : List (String × String)) (sensors : List Sensor) :
    Option (List Sensor) :=
  match items with
  | [] => some sensors
  | item :: rest =>
      match decodeStep sensors item with
      | none => none
      | some next => decodeItems rest next

/-- The response-decoding part of `GetSensors`: start from
`make([]Sensor, sensorCount)` and run the decode loop over the decoded
(name, value) pairs.  `none` models a Go panic; `some sensors` models
the normal `return sensors, nil`. -/
def GetSensors (items : List (String × String)) (sensorCount : ℕ) :
    Option (List Sensor) :=
  decodeItems items (List.replicate sensorCount defaultSensor)

/-- The response-handling part of `GetSensorCount`: an empty item list is
the error `"no values returned"`; otherwise the first item's value is
parsed with `ParseInt(_, 10, 8)` and a parse error becomes
`"Unexpected value <v>"`. -/
def GetSensorCount (items : List (String × String)) : Except String Int :=
  match items with
  | [] => Except.error "no values returned"
  | item :: _ =>
      let p := parseIntCore 8 item.2.data
      if p.2 then Except.ok p.1 else Except.error ("Unexpected value " ++ item.2)

/-- `writeValue`: the URL of the GET request
`<url>/cgi-bin/writeVal.cgi?G<id>.<name>=<value>`. -/
def writeValueURL (managementURL : String) (sensorID : Int)
    (valueName : String) (value : String) : String :=
  managementURL ++ "/cgi-bin/writeVal.cgi?G" ++ toString sensorID ++ "." ++
    valueName ++ "=" ++ value

/-- The value encoding of `SetTargetTemperature`:
`strconv.FormatFloat(float64(t*100), 'f', 0, 32)`.  The argument is a
binary32 value (as an exact rational); `t*100` is a binary32 multiply,
and formatting with precision 0 rounds the exact binary value to the
nearest integer, ties to even. -/
def temperatureToWire (targetTemperature : ℚ) : String :=
  toString (rne (toFloat32 (targetTemperature * 100)))

/-- `SetTargetTemperature`: writes field `SollTemp` with the formatted
scaled temperature. -/
def SetTargetTemperatureURL (managementURL : String) (sensorID : Int)
    (targetTemperature : ℚ) : String :=
  writeValueURL managementURL sensorID "SollTemp" (temperatureToWire targetTemperature)

/-- `SetProgram`: writes field `WeekProg` with `strconv.Itoa(program)`. -/
def SetProgramURL (managementURL : String) (sensorID : Int) (program : Int) : String :=
  writeValueURL managementURL sensorID "WeekProg" (toString program)

/-- `SetMode`: writes field `OPMode` (capital `M`) with `strconv.Itoa(mode)`. -/
def SetModeURL (managementURL : String) (sensorID : Int) (mode : Int) : String :=
  writeValueURL managementURL sensorID "OPMode" (toString mode)

/-- The five item names requested per sensor index by `GetSensors`, in
the order the request-building loop stores them at `i*5+0 .. i*5+4`. -/
def sensorItemNames (i : ℕ) : List String :=
  ["G" ++ toString i ++ ".RaumTemp",
   "G" ++ toString i ++ ".SollTemp",
   "G" ++ toString i ++ ".name",
   "G" ++ toString i ++ ".WeekProg",
   "G" ++ toString i ++ ".OPmode"]

/-- The request-building loop of `GetSensors`: the array of
`sensorCount*5` item names, filled for `i = 0 .. sensorCount-1` with the
five names of index `i` at positions `i*5+0 .. i*5+4`; equivalently the
blocks concatenated in index order. -/
def buildFullReadRequest (sensorCount : ℕ) : List String :=
  (List.range sensorCount).flatMap sensorItemNames

/-- C1: the claim says an item whose index equals `sensorCount` is
skipped non-fatally and the remaining sensors are still returned.  The
code has no bounds check before `&sensors[int(sensorIndex)]`, so the
boundary item `G1.RaumTemp` with `sensorCount = 1` makes the whole call
panic (`none`) and no sensors are returned, even when an earlier item
decoded fine; the in-range control case decodes normally. -/
theorem getSensors_boundary_index_panics :
    GetSensors [("G1.RaumTemp", "2000")] 1 = none ∧
    GetSensors [("G0.RaumTemp", "2000"), ("G1.RaumTemp", "2000")] 1 = none ∧
    GetSensors [("G0.RaumTemp", "2000")] 1 = some [⟨0, "", 20, 0, 0, 0⟩] := by
  decide

/-- C2: a name that does not match the pattern at all (`Gxx.RaumTemp`)
is indeed skipped without any modification; but a matching name whose
index fails `ParseInt(_, 10, 8)` (here `G200`) is NOT skipped: the
clamped index 127 is used, panicking when `sensorCount ≤ 127` and
overwriting sensor 127 when `sensorCount = 128`. -/
theorem getSensors_unparseable_index_clamped :
    GetSensors [("Gxx.RaumTemp", "9999")] 1 = some [defaultSensor] ∧
    GetSensors [("G200.RaumTemp", "1234")] 1 = none ∧
    (GetSensors [("G200.RaumTemp", "1234")] 128).map (fun l => l.getD 127 defaultSensor)
      = some ⟨127, "", 3234857/262144, 0, 0, 0⟩ ∧
    (3234857 : ℚ)/262144 = toFloat32 ((1234 : ℚ)/100) ∧
    (3234857 : ℚ)/262144 ≠ 0 := by
  decide

/-- C3 counterexample: encoding the binary32 value nearest 21.456 does
not yield `"2145"` — `FormatFloat(_, 'f', 0, 32)` rounds, it does not
truncate. -/
theorem temperatureToWire_no_truncation_cex :
    temperatureToWire (toFloat32 ((21456 : ℚ)/1000)) ≠ "2145" := by
  decide

/-- C3 amended: `temperatureToWire` multiplies by 100 in binary32 and
formats with rounding to the nearest integer (ties to even), so
encoding 21.456 yields `"2146"`, while truncation toward zero of the
same scaled value would give 2145. -/
theorem temperatureToWire_rounds_to_nearest :
    temperatureToWire (toFloat32 ((21456 : ℚ)/1000)) = "2146" ∧
    (toFloat32 (toFloat32 ((21456 : ℚ)/1000) * 100)).floor = 2145 ∧
    SetTargetTemperatureURL "" 0 (toFloat32 ((21456 : ℚ)/1000))
      = "/cgi-bin/writeVal.cgi?G0.SollTemp=2146" := by
  decide

/-- C4: the three pairs decode to the sensor with id 0, name
`"Kitchen"`, room temperature 20.86 (stored as the nearest binary32
value `1367081/65536` of `2086/100`), target temperature exactly 21,
and its derived valve state is `"open"`; `GetValveState` is `"open"`
iff the room temperature is below the target and `"closed"` otherwise. -/
theorem decode_kitchen_scenario :
    GetSensors [("G0.RaumTemp", "2086"), ("G0.SollTemp", "2100"), ("G0.name", "Kitchen")] 1
      = some [⟨0, "Kitchen", 1367081/65536, 21, 0, 0⟩] ∧
    (1367081 : ℚ)/65536 = toFloat32 ((2086 : ℚ)/100) ∧
    toFloat32 ((2100 : ℚ)/100) = 21 ∧
    Sensor.GetValveState ⟨0, "Kitchen", 1367081/65536, 21, 0, 0⟩ = "open" ∧
    ∀ s : Sensor,
      (s.GetValveState = "open" ↔ s.RoomTemperature < s.TargetTemperature) ∧
      (s.GetValveState = "open" ∨ s.GetValveState = "closed") := by
  refine ⟨by decide, by decide, by decide, by decide, ?_⟩
  intro s
  unfold Sensor.GetValveState
  split
  · simp_all
  · constructor
    · constructor
      · intro h
        exact absurd h (by decide)
      · intro h
        simp_all
    · right
      rfl

/-- C10 counterexample: an in-range `WeekProg` item whose value
overflows the 16-bit parse bound is not written as 0 — the clamped
`ParseInt` residual 32767 is assigned to `Program`. -/
theorem weekProg_overflow_value_cex :
    GetSensors [("G0.WeekProg", "40000")] 1 = some [⟨0, "", 0, 0, 32767, 0⟩] ∧
    (32767 : Int) ≠ 0 := by
  decide

/-- `String.append` is associative (on the underlying character lists). -/
theorem string_append_assoc (a b c : String) : a ++ b ++ c = a ++ (b ++ c) := by
  cases a
  cases b
  cases c
  exact congrArg String.mk (List.append_assoc _ _ _)

/-- `writeValueURL` renders the key/value pair `G<id>.<field>=<value>`
after the fixed endpoint path; `key` is the merged `.` ++ field ++ `=`
fragment. -/
theorem writeValueURL_eq (m v : String) (id : Int) (field key : String)
    (h : "." ++ field ++ "=" = key) :
    writeValueURL m id field v
      = m ++ "/cgi-bin/writeVal.cgi?G" ++ toString id ++ key ++ v := by
  subst h
  unfold writeValueURL
  simp only [string_append_assoc]

/-- C8: write commands target `G<sensorId>.<field>=<value>`:
`SetTargetTemperature` writes `SollTemp` with the temperature scaled by
100 (21 encodes as `"2100"`), `SetProgram` writes `WeekProg` with the
plain integer, and `SetMode` writes `OPMode` — capital `M`, different
from the read-side field name `OPmode` that `GetSensors` requests. -/
theorem write_command_keys (m : String) (id p md : Int) (t : ℚ) :
    SetTargetTemperatureURL m id t
      = m ++ "/cgi-bin/writeVal.cgi?G" ++ toString id ++ ".SollTemp=" ++ temperatureToWire t ∧
    SetProgramURL m id p
      = m ++ "/cgi-bin/writeVal.cgi?G" ++ toString id ++ ".WeekProg=" ++ toString p ∧
    SetModeURL m id md
      = m ++ "/cgi-bin/writeVal.cgi?G" ++ toString id ++ ".OPMode=" ++ toString md ∧
    temperatureToWire 21 = "2100" ∧
    SetTargetTemperatureURL "http://x" 3 21 = "http://x/cgi-bin/writeVal.cgi?G3.SollTemp=2100" ∧
    SetProgramURL "http://x" 3 2 = "http://x/cgi-bin/writeVal.cgi?G3.WeekProg=2" ∧
    SetModeURL "http://x" 3 1 = "http://x/cgi-bin/writeVal.cgi?G3.OPMode=1" ∧
    ("OPMode" : String) ≠ "OPmode" ∧
    sensorItemNames 0 = ["G0.RaumTemp", "G0.SollTemp", "G0.name", "G0.WeekProg", "G0.OPmode"] := by
  refine ⟨?_, ?_, ?_, by decide, by decide, by decide, by decide, by decide, by decide⟩
  · exact writeValueURL_eq m (temperatureToWire t) id "SollTemp" ".SollTemp=" (by decide)
  · exact writeValueURL_eq m (toString p) id "WeekProg" ".WeekProg=" (by decide)
  · exact writeValueURL_eq m (toString md) id "OPMode" ".OPMode=" (by decide)

/-- One index block of the request list built by `GetSensors`. -/
theorem buildFullReadRequest_succ (n : ℕ) :
    buildFullReadRequest (n + 1) = buildFullReadRequest n ++ sensorItemNames n := by
  simp [buildFullReadRequest, List.range_succ]

/-- The request list has five names per sensor index. -/
theorem buildFullReadRequest_length (n : ℕ) :
    (buildFullReadRequest n).length = 5 * n := by
  induction n with
  | zero => rfl
  | succ m ih =>
      have h5 : (sensorItemNames m).length = 5 := rfl
      rw [buildFullReadRequest_succ, List.length_append, ih, h5]
      omega

/-- C5: for every `sensorCount`, the full-read request has exactly
`5 * sensorCount` item names, and for every index `i < sensorCount` the
five names of index `i` (`RaumTemp`, `SollTemp`, `name`, `WeekProg`,
`OPmode`, in that fixed order) occupy positions `5*i .. 5*i+4`; with the
length this tiles the whole request, so each name is emitted exactly
once. -/
theorem buildFullReadRequest_shape (n : ℕ) :
    (buildFullReadRequest n).length = 5 * n ∧
    ∀ i, i < n → ∃ pre post,
      buildFullReadRequest n = pre ++ sensorItemNames i ++ post ∧ pre.length = 5 * i := by
  refine ⟨buildFullReadRequest_length n, ?_⟩
  intro i hi
  induction n with
  | zero => exact absurd hi (by omega)
  | succ m ih =>
      rcases Nat.lt_succ_iff_lt_or_eq.mp hi with h | h
      · obtain ⟨pre, post, heq, hlen⟩ := ih h
        refine ⟨pre, post ++ sensorItemNames m, ?_, hlen⟩
        rw [buildFullReadRequest_succ, heq]
        simp [List.append_assoc]
      · subst h
        exact ⟨buildFullReadRequest i, [],
          by rw [buildFullReadRequest_succ]; simp, buildFullReadRequest_length i⟩

/-- Witness for C5 at `sensorCount = 3`, `i = 1`. -/
theorem buildFullReadRequest_shape_witness :
    (buildFullReadRequest 3).length = 5 * 3 ∧
    ∃ pre post,
      buildFullReadRequest 3 = pre ++ sensorItemNames 1 ++ post ∧ pre.length = 5 * 1 :=
  ⟨(buildFullReadRequest_shape 3).1, (buildFullReadRequest_shape 3).2 1 (by decide)⟩

/-- C6: `GetSensorCount` turns an empty response into the protocol error
`"no values returned"` (never a count of 0), turns an unparseable first
value into an `"Unexpected value"` error, and otherwise returns the
parsed integer. -/
theorem getSensorCount_protocol (first : String × String) (rest : List (String × String)) :
    GetSensorCount [] = Except.error "no values returned" ∧
    ((parseIntCore 8 first.2.data).2 = true →
      GetSensorCount (first :: rest) = Except.ok (parseIntCore 8 first.2.data).1) ∧
    ((parseIntCore 8 first.2.data).2 = false →
      GetSensorCount (first :: rest) = Except.error ("Unexpected value " ++ first.2)) := by
  refine ⟨rfl, ?_, ?_⟩ <;> intro h <;> simp [GetSensorCount, h]

/-- Witness for C6: empty response, a parseable count and an
unparseable count. -/
theorem getSensorCount_protocol_witness :
    GetSensorCount [] = Except.error "no values returned" ∧
    GetSensorCount [("totalNumberOfDevices", "3")] = Except.ok 3 ∧
    GetSensorCount [("totalNumberOfDevices", "x")] = Except.error ("Unexpected value " ++ "x") :=
  ⟨(getSensorCount_protocol ("totalNumberOfDevices", "3") []).1,
   (getSensorCount_protocol ("totalNumberOfDevices", "3") []).2.1 (by decide),
   (getSensorCount_protocol ("totalNumberOfDevices", "x") []).2.2 (by decide)⟩

/-- `takeWhile`/`dropWhile` split a list at the first character failing
the predicate. -/
theorem takeWhile_append_stop (p : Char → Bool) (l : List Char) (c : Char) (t : List Char)
    (hl : l.all p = true) (hc : p c = false) :
    (l ++ c :: t).takeWhile p = l ∧ (l ++ c :: t).dropWhile p = c :: t := by
  induction l with
  | nil => simp [List.takeWhile_cons, List.dropWhile_cons, hc]
  | cons a as ih =>
      simp only [List.all_cons, Bool.and_eq_true] at hl
      obtain ⟨h1, h2⟩ := ih hl.2
      simp [List.takeWhile_cons, List.dropWhile_cons, hl.1, h1, h2]

/-- `takeWhile`/`dropWhile` on a list every element of which satisfies
the predicate. -/
theorem takeWhile_all_eq (p : Char → Bool) (l : List Char) (hl : l.all p = true) :
    l.takeWhile p = l ∧ l.dropWhile p = [] := by
  induction l with
  | nil => simp
  | cons a as ih =>
      simp only [List.all_cons, Bool.and_eq_true] at hl
      obtain ⟨h1, h2⟩ := ih hl.2
      simp [List.takeWhile_cons, List.dropWhile_cons, hl.1, h1, h2]

/-- The name regex on a well-formed per-sensor name `G<digits>.<field>`
captures the digit run and the field. -/
theorem sensorInfoMatch_eq (ds field : List Char)
    (h1 : ds ≠ []) (h2 : ds.all Char.isDigit = true)
    (h3 : field ≠ []) (h4 : field.all (fun c => ¬ c = '\n') = true) :
    sensorInfoMatch ('G' :: (ds ++ '.' :: field)) = some (ds, field) := by
  obtain ⟨htw, hdw⟩ := takeWhile_append_stop Char.isDigit ds '.' field h2 (by decide)
  have h4n : '\n' ∉ field := by
    intro hmem
    have := by simpa using h4
    exact absurd rfl (this '\n' hmem)
  simp [sensorInfoMatch, htw, hdw, h1, h3, h4n]

/-- `ParseInt(_, 10, 8)` on a pure digit run: the numeric value when it
fits in `int8`, otherwise the clamped maximum 127 with an error. -/
theorem parseIntCore8_digits (ds : List Char)
    (h2 : ds.all Char.isDigit = true) (h1 : ds ≠ []) :
    parseIntCore 8 ds
      = if 128 ≤ digitsToNat ds then ((127 : Int), false)
        else ((digitsToNat ds : Int), true) := by
  obtain ⟨c, cs, rfl⟩ := List.exists_cons_of_ne_nil h1
  have hc : c.isDigit = true := by
    simp only [List.all_cons, Bool.and_eq_true] at h2
    exact h2.1
  have hcm : ¬ c = '-' := by
    intro e
    subst e
    exact absurd hc (by decide)
  have hcp : ¬ c = '+' := by
    intro e
    subst e
    exact absurd hc (by decide)
  obtain ⟨htw, hdw⟩ := takeWhile_all_eq Char.isDigit (c :: cs) h2
  simp only [parseIntCore, stripSign, if_neg hcm, if_neg hcp, htw, hdw]
  rw [if_neg (by simp)]
  norm_num
  intro hbig
  rw [if_pos (show (128 : ℕ) ≤ digitsToNat (c :: cs) by omega)]

/-- C7: an item `G<i>.Foo` with an unrecognized field identifier and an
in-range index is non-fatal and assigns no data field: the only effect
is the unconditional `Id := index` tag that every matched item writes
(a recognized sibling writes the same tag, so with a sibling present the
item is fully invisible, as the two concrete scenarios show). -/
theorem unrecognized_field_nonfatal (name v : String) (ds : List Char)
    (sensors : List Sensor)
    (hname : name.data = 'G' :: (ds ++ '.' :: "Foo".data))
    (h1 : ds ≠ []) (h2 : ds.all Char.isDigit = true)
    (h3 : digitsToNat ds ≤ 127) (h4 : digitsToNat ds < sensors.length) :
    decodeStep sensors (name, v)
      = some (sensors.set (digitsToNat ds)
          { sensors.getD (digitsToNat ds) defaultSensor with Id := (digitsToNat ds : Int) }) ∧
    GetSensors [("G0.Foo", "1"), ("G0.RaumTemp", "2086")] 1
      = GetSensors [("G0.RaumTemp", "2086")] 1 ∧
    GetSensors [("G0.RaumTemp", "2086"), ("G0.Foo", "1")] 1
      = some [⟨0, "", 1367081/65536, 0, 0, 0⟩] := by
  refine ⟨?_, by decide, by decide⟩
  have hm := sensorInfoMatch_eq ds "Foo".data h1 h2 (by decide) (by decide)
  have hp : parseIntCore 8 ds = ((digitsToNat ds : Int), true) := by
    rw [parseIntCore8_digits ds h2 h1, if_neg (by omega)]
  unfold decodeStep
  simp only [hname, hm, hp]
  rw [if_pos ⟨Int.natCast_nonneg _, by simpa using h4⟩]
  simp

/-- Witness for C7: `G1.Foo` against two sensors tags sensor 1's id and
changes nothing else. -/
theorem unrecognized_field_nonfatal_witness :
    decodeStep [defaultSensor, defaultSensor] ("G1.Foo", "7")
      = some ([defaultSensor, defaultSensor].set (digitsToNat ['1'])
          { [defaultSensor, defaultSensor].getD (digitsToNat ['1']) defaultSensor
              with Id := (digitsToNat ['1'] : Int) }) :=
  (unrecognized_field_nonfatal "G1.Foo" "7" ['1'] [defaultSensor, defaultSensor]
    (by decide) (by decide) (by decide) (by decide) (by decide)).1

/-- C9: both the count and the sensor index are parsed with an 8-bit
signed bound.  A count above 127 (or below -128, e.g. `"-200"`) makes
`GetSensorCount` return an error rather than the numeric value.  An
index above 127 parses to the clamped pair `(127, error)`, so the item
never addresses the sensor named by its index: with one sensor the call
panics, and with 128 sensors the write lands at slot 127. -/
theorem int8_bound_on_count_and_index (countName name v : String) (ds : List Char)
    (rest : List (String × String))
    (h1 : ds.all Char.isDigit = true) (h2 : 127 < digitsToNat ds)
    (hname : name.data = 'G' :: (ds ++ '.' :: "RaumTemp".data)) :
    parseIntCore 8 ds = ((127 : Int), false) ∧
    GetSensorCount ((countName, String.mk ds) :: rest)
      = Except.error ("Unexpected value " ++ String.mk ds) ∧
    GetSensorCount ((countName, "-200") :: rest)
      = Except.error ("Unexpected value " ++ "-200") ∧
    decodeStep (List.replicate 1 defaultSensor) (name, v) = none ∧
    decodeStep (List.replicate 128 defaultSensor) (name, "1234")
      = some ((List.replicate 128 defaultSensor).set 127
          ⟨127, "", toFloat32 ((1234 : ℚ)/100), 0, 0, 0⟩) := by
  have hne : ds ≠ [] := by
    intro e
    subst e
    simp [digitsToNat] at h2
  have hp : parseIntCore 8 ds = ((127 : Int), false) := by
    rw [parseIntCore8_digits ds h1 hne, if_pos (by omega)]
  have hm := sensorInfoMatch_eq ds "RaumTemp".data hne h1 (by decide) (by decide)
  refine ⟨hp, ?_, ?_, ?_, ?_⟩
  · simp [GetSensorCount, hp]
  · have hneg : parseIntCore 8 ("-200".data) = ((-128 : Int), false) := by decide
    simp [GetSensorCount, hneg]
  · unfold decodeStep
    simp only [hname, hm, hp]
    rw [if_neg (by decide)]
  · unfold decodeStep
    simp only [hname, hm, hp]
    rw [if_pos (by decide)]
    decide

/-- Witness for C9 at index and count 200. -/
theorem int8_bound_on_count_and_index_witness :
    parseIntCore 8 ['2', '0', '0'] = ((127 : Int), false) ∧
    GetSensorCount [("totalNumberOfDevices", String.mk ['2', '0', '0'])]
      = Except.error ("Unexpected value " ++ String.mk ['2', '0', '0']) ∧
    GetSensorCount [("totalNumberOfDevices", "-200")]
      = Except.error ("Unexpected value " ++ "-200") ∧
    decodeStep (List.replicate 1 defaultSensor) ("G200.RaumTemp", "9") = none ∧
    decodeStep (List.replicate 128 defaultSensor) ("G200.RaumTemp", "1234")
      = some ((List.replicate 128 defaultSensor).set 127
          ⟨127, "", toFloat32 ((1234 : ℚ)/100), 0, 0, 0⟩) :=
  int8_bound_on_count_and_index "totalNumberOfDevices" "G200.RaumTemp" "9"
    ['2', '0', '0'] [] (by decide) (by decide) (by decide)

/-- C10 amended: an in-range item whose value fails the 16-bit
`ParseInt` still assigns the dispatched field.  For the temperature
fields `floatValue` is guarded by the parse error and 0 is written
(overwriting any earlier value); for `WeekProg`/`OPmode` the unguarded
`intValue` residual is written — the clamped bound 32767 / -32768
whenever the leading digit run overflows `ParseUint`'s unsigned 16-bit
scan (also with trailing garbage, e.g. `"70000x"`), and 0 on a syntax
error (no digit run, or a non-digit reached while the accumulated value
still fits, e.g. `"40000x"`). -/
theorem unparseable_value_assigns_residual (v : String)
    (h : (parseIntCore 16 v.data).2 = false) :
    GetSensors [("G0.RaumTemp", v)] 1 = some [defaultSensor] ∧
    GetSensors [("G0.SollTemp", v)] 1 = some [defaultSensor] ∧
    GetSensors [("G0.RaumTemp", "2086"), ("G0.RaumTemp", v)] 1 = some [defaultSensor] ∧
    GetSensors [("G0.WeekProg", v)] 1
      = some [⟨0, "", 0, 0, (parseIntCore 16 v.data).1, 0⟩] ∧
    GetSensors [("G0.OPmode", v)] 1
      = some [⟨0, "", 0, 0, 0, (parseIntCore 16 v.data).1⟩] ∧
    GetSensors [("G0.WeekProg", "70000x")] 1 = some [⟨0, "", 0, 0, 32767, 0⟩] ∧
    GetSensors [("G0.WeekProg", "-70000x")] 1 = some [⟨0, "", 0, 0, -32768, 0⟩] ∧
    GetSensors [("G0.WeekProg", "40000x")] 1 = some [defaultSensor] ∧
    ((parseIntCore 16 v.data).1 = 0 ∨ (parseIntCore 16 v.data).1 = 32767 ∨
      (parseIntCore 16 v.data).1 = -32768) := by
  have hmR : sensorInfoMatch ("G0.RaumTemp".data) = some (['0'], "RaumTemp".data) := by decide
  have hmS : sensorInfoMatch ("G0.SollTemp".data) = some (['0'], "SollTemp".data) := by decide
  have hmW : sensorInfoMatch ("G0.WeekProg".data) = some (['0'], "WeekProg".data) := by decide
  have hmO : sensorInfoMatch ("G0.OPmode".data) = some (['0'], "OPmode".data) := by decide
  have hp0 : parseIntCore 8 ['0'] = ((0 : Int), true) := by decide
  refine ⟨?_, ?_, ?_, ?_, ?_, by decide, by decide, by decide, ?_⟩
  · simp [GetSensors, decodeItems, decodeStep, hmR, hp0, h, defaultSensor]
  · simp [GetSensors, decodeItems, decodeStep, hmS, hp0, h, defaultSensor]
  · have h2086 : parseIntCore 16 ("2086".data) = ((2086 : Int), true) := by decide
    simp [GetSensors, decodeItems, decodeStep, hmR, hp0, h2086, h, defaultSensor]
  · simp [GetSensors, decodeItems, decodeStep, hmW, hp0, h, defaultSensor]
  · simp [GetSensors, decodeItems, decodeStep, hmO, hp0, h, defaultSensor]
  · unfold parseIntCore at h ⊢
    rcases hs : stripSign v.data with ⟨neg, t⟩
    simp only [hs] at h ⊢
    split_ifs at h ⊢ <;> norm_num at h ⊢

/-- Witness for C10 at the syntax-error value `"xyz"`, plus the
concrete overflow and hybrid values carried by the theorem. -/
theorem unparseable_value_assigns_residual_witness :
    GetSensors [("G0.RaumTemp", "xyz")] 1 = some [defaultSensor] ∧
    GetSensors [("G0.SollTemp", "xyz")] 1 = some [defaultSensor] ∧
    GetSensors [("G0.RaumTemp", "2086"), ("G0.RaumTemp", "xyz")] 1 = some [defaultSensor] ∧
    GetSensors [("G0.WeekProg", "xyz")] 1
      = some [⟨0, "", 0, 0, (parseIntCore 16 "xyz".data).1, 0⟩] ∧
    GetSensors [("G0.OPmode", "xyz")] 1
      = some [⟨0, "", 0, 0, 0, (parseIntCore 16 "xyz".data).1⟩] ∧
    GetSensors [("G0.WeekProg", "70000x")] 1 = some [⟨0, "", 0, 0, 32767, 0⟩] ∧
    GetSensors [("G0.WeekProg", "-70000x")] 1 = some [⟨0, "", 0, 0, -32768, 0⟩] ∧
    GetSensors [("G0.WeekProg", "40000x")] 1 = some [defaultSensor] ∧
    ((parseIntCore 16 "xyz".data).1 = 0 ∨ (parseIntCore 16 "xyz".data).1 = 32767 ∨
      (parseIntCore 16 "xyz".data).1 = -32768) :=
  unparseable_value_assigns_residual "xyz" (by decide)
